import Mathlib

/-!
Formal model of the daily C++ tip newsletter script (`Bytes.py`).

The script selects a tip string from a fixed list by calendar date,
renders it into an HTML / plain-text email, and hands one message per
recipient to an SMTP collaborator.  Python strings are modelled as
`List Char`; Python exceptions (`ZeroDivisionError` on an empty tip
list, the `RuntimeError` raised for missing configuration) are modelled
with `Except`.  The SMTP session is modelled as the list of network
events the script would issue, in order.
-/

namespace Newsletter

/-- Python strings are modelled as lists of Unicode code points. -/
abbrev Str := List Char

/-- Coerce a Lean string literal to the model type. -/
def str (s : String) : Str := s.toList

/-! ### Python `str.strip` (whitespace variant, as used by `e.strip()`) -/

/-- The ASCII whitespace characters removed by Python's `str.strip()`
(the script's data never contains the non-ASCII space code points that
`strip` would also remove). -/
def pyWhitespace (c : Char) : Bool :=
  c = ' ' || c = '\t' || c = '\n' || c = '\r' || c = '\x0b' || c = '\x0c'

/-- Remove leading whitespace. -/
def stripLeft : Str → Str
  | [] => []
  | c :: rest => if pyWhitespace c then stripLeft rest else c :: rest

/-- Remove trailing whitespace. -/
def stripRight (s : Str) : Str := (stripLeft s.reverse).reverse

/-- Python `s.strip()`: remove leading and trailing whitespace. -/
def strip (s : Str) : Str := stripLeft (stripRight s)

/-! ### Python `str.split(",")` -/

/-- Python `s.split(",")`: split on every comma; `""` splits to `[""]`. -/
def splitComma : Str → List Str
  | [] => [[]]
  | c :: rest =>
    if c = ',' then [] :: splitComma rest
    else
      match splitComma rest with
      | [] => [[c]]
      | h :: t => (c :: h) :: t

/-- `RECEIVER_EMAILS = [e.strip() for e in os.getenv("RECEIVER_EMAILS", "").split(",") if e.strip()]`
(`Bytes.py` line 10): split the configuration value on commas, strip each
entry, and keep only the entries that are non-empty after stripping. -/
def parseReceivers (s : Str) : List Str :=
  ((splitComma s).filter (fun e => !(strip e).isEmpty)).map strip

/-! ### The date ordinal (`datetime.date.toordinal`)

`pick_tip_today` keys the rotation on `datetime.date.today().toordinal()`,
the proleptic Gregorian day number (0001-01-01 is day 1).  We reproduce
CPython's `_ymd2ord` computation. -/

/-- Gregorian leap-year test (CPython `_is_leap`). -/
def isLeap (y : Nat) : Bool := y % 4 = 0 && (y % 100 ≠ 0 || y % 400 = 0)

/-- Days in all years before year `y` (CPython `_days_before_year`). -/
def daysBeforeYear (y : Nat) : Nat :=
  (y - 1) * 365 + (y - 1) / 4 - (y - 1) / 100 + (y - 1) / 400

/-- Days in year `y` strictly before month `m` (CPython `_days_before_month`). -/
def daysBeforeMonth (y m : Nat) : Nat :=
  (match m with
   | 1 => 0 | 2 => 31 | 3 => 59 | 4 => 90 | 5 => 120 | 6 => 151
   | 7 => 181 | 8 => 212 | 9 => 243 | 10 => 273 | 11 => 304 | 12 => 334
   | _ => 0) +
  (if 2 < m && isLeap y then 1 else 0)

/-- `datetime.date(y, m, d).toordinal()`: the proleptic Gregorian day
number (CPython `_ymd2ord`). -/
def ymd2ord (y m d : Nat) : Nat := daysBeforeYear y + daysBeforeMonth y m + d

/-! ### Tip selection (`pick_tip_today`, `Bytes.py` lines 145-148) -/

/-- `CPP_TIPS[today % len(CPP_TIPS)]`, parametrised by the tip list and
the day ordinal.  `none` models the `ZeroDivisionError` raised by
`% len(CPP_TIPS)` when the list is empty (for an empty list the index is
out of range exactly when Python would raise). -/
def pick_tip (tips : List Str) (ordinal : Nat) : Option Str :=
  tips[ordinal % tips.length]?

/-! ### Python `str.replace` and the plain-text fallback
(`build_text_fallback`, `Bytes.py` lines 193-199) -/

/-- One left-to-right pass of Python `s.replace(pat, rep)` for a
non-empty `pat`: replace each non-overlapping occurrence, scanning the
text once and never rescanning replacement text.  The fuel argument
(instantiated with `s.length`, an upper bound on the number of steps)
only makes the recursion structural. -/
def replaceAux (pat rep : Str) : Nat → Str → Str
  | 0, s => s
  | fuel + 1, s =>
    match s with
    | [] => []
    | c :: rest =>
      if pat.isPrefixOf s && !pat.isEmpty then
        rep ++ replaceAux pat rep fuel (s.drop pat.length)
      else
        c :: replaceAux pat rep fuel rest

/-- Python `s.replace(pat, rep)` (for the non-empty literal patterns the
script uses). -/
def pyReplace (pat rep s : Str) : Str := replaceAux pat rep s.length s

/-- Whether `pat` occurs as a contiguous substring of `s`
(Python `pat in s`). -/
def hasSub (pat : Str) : Str → Bool
  | [] => pat.isEmpty
  | c :: rest => pat.isPrefixOf (c :: rest) || hasSub pat rest

/-- `build_text_fallback` (`Bytes.py` lines 193-199): the chained
`str.replace` calls, in source order — `<code>` and `</code>` each
become a backtick, `<b>` and `</b>` are deleted, then `&gt;`, `&lt;`,
`&amp;` are decoded. -/
def build_text_fallback (tip_html : Str) : Str :=
  pyReplace (str "&amp;") (str "&")
    (pyReplace (str "&lt;") (str "<")
      (pyReplace (str "&gt;") (str ">")
        (pyReplace (str "</b>") (str "")
          (pyReplace (str "<b>") (str "")
            (pyReplace (str "</code>") (str "`")
              (pyReplace (str "<code>") (str "`") tip_html))))))

/-- The same transform as an explicit ordered list of
(pattern, replacement) rules applied once each, in order. -/
def fallbackRules : List (Str × Str) :=
  [(str "<code>", str "`"), (str "</code>", str "`"),
   (str "<b>", str ""), (str "</b>", str ""),
   (str "&gt;", str ">"), (str "&lt;", str "<"),
   (str "&amp;", str "&")]

/-- Apply an ordered list of (pattern, replacement) rules, one
`pyReplace` pass per rule. -/
def applyRules (rules : List (Str × Str)) (s : Str) : Str :=
  rules.foldl (fun acc pr => pyReplace pr.1 pr.2 acc) s

/-- The seven tokens `build_text_fallback` recognises. -/
def fallbackTokens : List Str := fallbackRules.map Prod.fst

/-! ### Decimal rendering and `date.isoformat()` -/

/-- Decimal digits of `n` (most significant first) for `n ≥ 1`; the fuel
argument (instantiated with `n` itself, an upper bound on the number of
divisions by 10) only makes the recursion structural. -/
def natStrAux : Nat → Nat → Str
  | 0, _ => []
  | _ + 1, 0 => []
  | fuel + 1, n + 1 => natStrAux fuel ((n + 1) / 10) ++ [Nat.digitChar ((n + 1) % 10)]

/-- Python `str(n)` for a natural number. -/
def natToStr (n : Nat) : Str := if n = 0 then str "0" else natStrAux n n

/-- Left-pad a digit string with zeros to width `k` (as `%04d` / `%02d`). -/
def padZero (k : Nat) (s : Str) : Str := List.replicate (k - s.length) '0' ++ s

/-- `datetime.date(y, m, d).isoformat()`: `YYYY-MM-DD` with the year
zero-padded to four digits and month and day to two. -/
def isoformat (y m d : Nat) : Str :=
  padZero 4 (natToStr y) ++ '-' :: (padZero 2 (natToStr m) ++ '-' :: padZero 2 (natToStr d))

/-- `subject = f"Daily C++ Byte â€¢ {datetime.date.today().isoformat()}"`
(`Bytes.py` line 226), parametrised by the current date. -/
def subjectFor (y m d : Nat) : Str := str "Daily C++ Byte â€¢ " ++ isoformat y m d

/-- A string has the shape of an ISO `YYYY-MM-DD` date: four digits,
a dash, two digits, a dash, two digits. -/
def IsIsoDate (s : Str) : Prop :=
  ∃ ys ms ds : Str,
    s = ys ++ '-' :: (ms ++ '-' :: ds) ∧
    ys.length = 4 ∧ ms.length = 2 ∧ ds.length = 2 ∧
    (∀ c ∈ ys, c.isDigit) ∧ (∀ c ∈ ms, c.isDigit) ∧ (∀ c ∈ ds, c.isDigit)

/-! ### The HTML body (`build_html_email`, `Bytes.py` lines 150-191) -/

/-- The fixed HTML template text before the `{tip_html}` hole. -/
def htmlBefore : Str := str "
<!doctype html>
<html>
  <body style=\"margin:0;padding:24px;background:#0f172a;font-family:Inter,Segoe UI,Arial,sans-serif;\">
    <div style=\"max-width:680px;margin:0 auto;background:#0b1022;border:1px solid #1f2a44;border-radius:16px;overflow:hidden;\">
      <!-- Header -->
      <div style=\"background:linear-gradient(135deg,#7c3aed,#06b6d4);padding:18px 22px;\">
        <h1 style=\"margin:0;color:#fff;font-size:20px;letter-spacing:.4px;\">
          ðŸ’¡ Daily C++ Byte
        </h1>
      </div>

      <!-- Content -->
      <div style=\"padding:22px 22px 8px 22px;color:#e5e7eb;line-height:1.6;font-size:15px;\">
        <p style=\"margin:0 0 14px 0;\">Hereâ€™s your tip for today:</p>

        <div style=\"
            background:#0b122a;
            border:1px solid #223159;
            border-radius:12px;
            padding:14px 16px;
            box-shadow:0 2px 14px rgba(0,0,0,.35), inset 0 1px 0 rgba(255,255,255,.04);
            \">
          <div style=\"font-size:15px;color:#dbeafe;\">
            "

/-- The fixed HTML template text after the `{tip_html}` hole. -/
def htmlAfter : Str := str "
          </div>
        </div>

        <div style=\"margin-top:16px;padding:12px;border-radius:10px;background:#0a162f;border:1px dashed #22406e;color:#93c5fd;\">
          <b>Pro tip:</b> Try to implement a tiny example for each byte you read. Muscle memory beats theory!
        </div>

        <p style=\"color:#94a3b8;font-size:12px;margin-top:18px;\">
          Sent automatically by your Python bot ðŸ¤–
        </p>
      </div>
    </div>
  </body>
</html>
"

/-- `build_html_email` (`Bytes.py` lines 150-191): the f-string template
with the tip substituted, then `.strip()` applied to the result. -/
def build_html_email (tip_html : Str) : Str :=
  strip (htmlBefore ++ tip_html ++ htmlAfter)

/-! ### The dispatch loop (`send_email`, `Bytes.py` lines 201-219) and
`__main__` (lines 221-227) -/

/-- The two error kinds of the run: `invalidInput` models the
`ZeroDivisionError` from `% len(CPP_TIPS)` on an empty tip list,
`configError` the `RuntimeError` raised for missing configuration. -/
inductive AppError where
  | invalidInput
  | configError
deriving DecidableEq

/-- One outbound MIME message: From / To / Subject headers, the plain
part and the HTML part (attached in that order). -/
structure EmailMsg where
  fromAddr : Str
  toAddr : Str
  subject : Str
  textBody : Str
  htmlBody : Str
deriving DecidableEq

/-- The network actions `send_email` performs on the SMTP session, in
order. -/
inductive NetEvent where
  | connect (host : Str) (port : Nat)
  | starttls
  | login (user password : Str)
  | send (envFrom envTo : Str) (msg : EmailMsg)
deriving DecidableEq

deriving instance DecidableEq for Except

/-- Python truthiness of an optional string (as in
`not (SENDER_EMAIL and EMAIL_PASSWORD and RECEIVER_EMAILS)`): `None` and
`""` are falsy. -/
def pyTruthy : Option Str → Bool
  | none => false
  | some s => !s.isEmpty

/-- `send_email` (`Bytes.py` lines 201-219): raise `RuntimeError` when
the sender address, the password, or the recipient list is missing or
empty; otherwise connect, STARTTLS, log in, and send one individually
addressed message per recipient, in recipient-list order, all carrying
the same subject, text body, and HTML body. -/
def send_email (sender password : Option Str) (receivers : List Str)
    (subject html_body text_body : Str) : Except AppError (List NetEvent) :=
  if pyTruthy sender && pyTruthy password && !receivers.isEmpty then
    let u := sender.getD []
    let pw := password.getD []
    Except.ok
      (NetEvent.connect (str "smtp.gmail.com") 587 :: NetEvent.starttls :: NetEvent.login u pw ::
        receivers.map (fun rcpt =>
          let r := strip rcpt
          NetEvent.send u r ⟨u, r, subject, text_body, html_body⟩))
  else
    Except.error AppError.configError

/-- The `__main__` block (`Bytes.py` lines 221-227), parametrised by the
tip list, the current date, and the configuration: pick the tip for the
day, render the HTML body, the text fallback, and the dated subject,
then dispatch.  A `none` from `pick_tip` (empty tip list) aborts the run
before any rendering or dispatch. -/
def runMain (tips : List Str) (y m d : Nat) (sender password : Option Str)
    (receivers : List Str) : Except AppError (List NetEvent) :=
  match pick_tip tips (ymd2ord y m d) with
  | none => Except.error AppError.invalidInput
  | some tip =>
      send_email sender password receivers (subjectFor y m d)
        (build_html_email tip) (build_text_fallback tip)

/-! ### Scratch examples -/

set_option maxHeartbeats 16000000 in
example : build_text_fallback (str "<b>Use <code>auto</code></b>") = str "Use `auto`" := by decide

set_option maxHeartbeats 16000000 in
example : build_text_fallback (str "&amp;lt;") = str "&lt;" := by decide

set_option maxHeartbeats 16000000 in
example : build_text_fallback (str "Use auto") = str "Use auto" := by decide

example : ∀ s, build_text_fallback s = applyRules fallbackRules s := by
  intro s
  simp only [applyRules, fallbackRules, List.foldl_cons, List.foldl_nil, build_text_fallback]

example : ymd2ord 1 1 7 = 7 := by decide

example : pick_tip [str "A", str "B", str "C"] 7 = some (str "B") := by decide

example : pick_tip [] 7 = none := by decide

example : parseReceivers (str "a@x.com, b@x.com") = [str "a@x.com", str "b@x.com"] := by decide

example : parseReceivers (str "a@x.com,, b@x.com") = [str "a@x.com", str "b@x.com"] := by decide

example : parseReceivers (str "") = [] := by decide

example : isoformat 2026 10 12 = str "2026-10-12" := by decide

example : isoformat 99 3 4 = str "0099-03-04" := by decide

example : subjectFor 2025 1 2 = str "Daily C++ Byte â€¢ 2025-01-02" := by decide

example :
    send_email (some (str "s@x")) (some (str "p")) [str "a@x.com", str " b@x.com"]
      (str "S") (str "H") (str "T") =
    Except.ok
      [NetEvent.connect (str "smtp.gmail.com") 587, NetEvent.starttls,
       NetEvent.login (str "s@x") (str "p"),
       NetEvent.send (str "s@x") (str "a@x.com") ⟨str "s@x", str "a@x.com", str "S", str "T", str "H"⟩,
       NetEvent.send (str "s@x") (str "b@x.com") ⟨str "s@x", str "b@x.com", str "S", str "T", str "H"⟩] := by
  decide

example : send_email none (some (str "p")) [str "a"] (str "S") (str "H") (str "T") =
    Except.error AppError.configError := by decide

example : runMain [] 2026 10 12 (some (str "s")) (some (str "p")) [str "a"] =
    Except.error AppError.invalidInput := by decide

/-! ### Helper lemmas -/

theorem hasSub_cons_eq_false {pat : Str} {c : Char} {rest : Str}
    (h : hasSub pat (c :: rest) = false) :
    pat.isPrefixOf (c :: rest) = false ∧ hasSub pat rest = false := by
  simpa [hasSub] using h

theorem replaceAux_eq_self (pat rep : Str) :
    ∀ (fuel : Nat) (s : Str), hasSub pat s = false → replaceAux pat rep fuel s = s := by
  intro fuel
  induction fuel with
  | zero => intro s _; rfl
  | succ f ih =>
    intro s hs
    match s with
    | [] => rfl
    | c :: rest =>
      have h := hasSub_cons_eq_false hs
      simp [replaceAux, h.1, ih rest h.2]

/-- A `str.replace` pass whose pattern does not occur leaves the string
unchanged. -/
theorem pyReplace_eq_self (pat rep s : Str) (h : hasSub pat s = false) :
    pyReplace pat rep s = s :=
  replaceAux_eq_self pat rep s.length s h

theorem digitChar_isDigit (r : Nat) (h : r < 10) : (Nat.digitChar r).isDigit = true := by
  interval_cases r <;> decide

theorem natStrAux_length :
    ∀ (fuel n k : Nat), n ≤ fuel → n < 10 ^ k → (natStrAux fuel n).length ≤ k := by
  intro fuel
  induction fuel with
  | zero => intro n k _ _; simp [natStrAux]
  | succ f ih =>
    intro n k hn hk
    match n with
    | 0 => simp [natStrAux]
    | m + 1 =>
      cases k with
      | zero => simp at hk
      | succ k' =>
        have h1 : (m + 1) / 10 ≤ f := by
          have : (m + 1) / 10 < m + 1 := Nat.div_lt_self (Nat.succ_pos m) (by norm_num)
          omega
        have h2 : (m + 1) / 10 < 10 ^ k' := by
          rw [Nat.div_lt_iff_lt_mul (by norm_num : 0 < 10)]
          calc m + 1 < 10 ^ (k' + 1) := hk
            _ = 10 ^ k' * 10 := by ring
        have h3 := ih ((m + 1) / 10) k' h1 h2
        simp only [natStrAux, List.length_append, List.length_cons, List.length_nil]
        omega

theorem natToStr_length_le {n k : Nat} (hk : 1 ≤ k) (h : n < 10 ^ k) :
    (natToStr n).length ≤ k := by
  unfold natToStr
  split
  · simpa [str] using hk
  · exact natStrAux_length n n k le_rfl h

theorem natStrAux_digits :
    ∀ (fuel n : Nat), ∀ c ∈ natStrAux fuel n, c.isDigit = true := by
  intro fuel
  induction fuel with
  | zero => intro n c hc; simp [natStrAux] at hc
  | succ f ih =>
    intro n c hc
    match n with
    | 0 => simp [natStrAux] at hc
    | m + 1 =>
      simp only [natStrAux, List.mem_append, List.mem_singleton] at hc
      rcases hc with hc | hc
      · exact ih _ c hc
      · subst hc
        exact digitChar_isDigit _ (Nat.mod_lt _ (by norm_num))

theorem natToStr_digits (n : Nat) : ∀ c ∈ natToStr n, c.isDigit = true := by
  unfold natToStr
  split
  · intro c hc
    have : c = '0' := by simpa [str] using hc
    subst this; decide
  · exact natStrAux_digits n n

theorem padZero_length {k : Nat} (s : Str) (h : s.length ≤ k) :
    (padZero k s).length = k := by
  simp [padZero]
  omega

theorem padZero_digits (k : Nat) (s : Str) (hs : ∀ c ∈ s, c.isDigit = true) :
    ∀ c ∈ padZero k s, c.isDigit = true := by
  intro c hc
  simp only [padZero, List.mem_append] at hc
  rcases hc with hc | hc
  · rw [List.eq_of_mem_replicate hc]; decide
  · exact hs c hc

/-! ### Claim theorems -/

/-- C1: for every tip list of N strings with N ≥ 1 and every calendar
date, the tip selector returns the element of the list at index
`ordinal(date) mod N`, where the ordinal is the proleptic Gregorian day
number. -/
theorem c1_tip_selection (tips : List Str) (y m d : Nat) (h : tips ≠ []) :
    pick_tip tips (ymd2ord y m d) =
      some (tips.get ⟨ymd2ord y m d % tips.length,
        Nat.mod_lt _ (List.length_pos.mpr h)⟩) := by
  have hlt : ymd2ord y m d % tips.length < tips.length :=
    Nat.mod_lt _ (List.length_pos.mpr h)
  simp [pick_tip, List.getElem?_eq_getElem hlt]

/-- C1 witness: the list `["A", "B", "C"]` on the date of ordinal 7
(0001-01-07) selects index `7 mod 3 = 1`, i.e. `"B"`. -/
theorem c1_witness :
    pick_tip [str "A", str "B", str "C"] (ymd2ord 1 1 7) = some (str "B") := by
  have h := c1_tip_selection [str "A", str "B", str "C"] 1 1 7 (by decide)
  exact h.trans (by decide)

set_option maxHeartbeats 16000000 in
/-- C2 counterexample: the code maps `"<b>Use <code>auto</code></b>"` to
`"Use `auto`"`, not to `"Use auto"` as the claim states — the code
markup tokens are replaced by backticks, not deleted. -/
theorem c2_counterexample :
    build_text_fallback (str "<b>Use <code>auto</code></b>") = str "Use `auto`" ∧
    str "Use `auto`" ≠ str "Use auto" := by
  exact ⟨by decide, by decide⟩

set_option maxHeartbeats 16000000 in
/-- C2 (amended): the plain-text fallback is the ordered substitution
pass `fallbackRules` — it deletes the paired emphasis tokens, replaces
each code markup token by a backtick, and decodes the named escapes for
`<`, `>`, `&`; applied to `"<b>Use <code>auto</code></b>"` it returns
`"Use `auto`"`. -/
theorem c2_fallback_amended :
    (∀ s, build_text_fallback s = applyRules fallbackRules s) ∧
    build_text_fallback (str "<b>Use <code>auto</code></b>") = str "Use `auto`" := by
  constructor
  · intro s
    simp only [applyRules, fallbackRules, List.foldl_cons, List.foldl_nil,
      build_text_fallback]
  · decide

/-- C3: on an empty tip list the run fails with the invalid-input error
(the `ZeroDivisionError` of `% len(CPP_TIPS)`); no message is built and
no network event is produced, whatever the date and the mail
configuration. -/
theorem c3_empty_tip_list (y m d : Nat) (sender password : Option Str)
    (receivers : List Str) :
    runMain [] y m d sender password receivers = Except.error AppError.invalidInput ∧
    ∀ events : List NetEvent,
      runMain [] y m d sender password receivers ≠ Except.ok events := by
  have h0 : runMain [] y m d sender password receivers =
      Except.error AppError.invalidInput := rfl
  exact ⟨h0, fun events hev => by rw [h0] at hev; exact Except.noConfusion hev⟩

/-- C4: over any window of N consecutive day ordinals the selector
produces every tip of a non-empty N-element list exactly once (the
window of selections is a permutation of the list), and the selection
repeats with period N. -/
theorem c4_cycle (tips : List Str) (o : Nat) (h : tips ≠ []) :
    ((List.range tips.length).map (fun k => pick_tip tips (o + k))).Perm
      (tips.map some) ∧
    pick_tip tips (o + tips.length) = pick_tip tips o := by
  have hN : 0 < tips.length := List.length_pos.mpr h
  constructor
  · have hrw : (List.range tips.length).map (fun k => pick_tip tips (o + k)) =
        (tips.rotate (o % tips.length)).map some := by
      apply List.ext_getElem?
      intro k
      by_cases hk : k < tips.length
      · have hidx : (k + o % tips.length) % tips.length = (o + k) % tips.length := by
          rw [Nat.add_mod_mod, Nat.add_comm]
        have hlt : (o + k) % tips.length < tips.length := Nat.mod_lt _ hN
        rw [List.getElem?_map, List.getElem?_map, List.getElem?_range hk,
          List.getElem?_rotate hk, hidx]
        simp [pick_tip, List.getElem?_eq_getElem hlt]
      · have hk' : tips.length ≤ k := Nat.le_of_not_lt hk
        rw [List.getElem?_eq_none (by simpa using hk'),
          List.getElem?_eq_none (by simpa [List.length_rotate] using hk')]
    rw [hrw]
    exact (List.rotate_perm tips (o % tips.length)).map some
  · show tips[(o + tips.length) % tips.length]? = tips[o % tips.length]?
    rw [Nat.add_mod_right]

/-- C4 witness: for the 3-element list `["A", "B", "C"]` and the window
starting at ordinal 5, the three selections are a permutation of the
list and the selection at ordinal 5 + 3 equals the one at ordinal 5. -/
theorem c4_witness :
    ((List.range 3).map (fun k => pick_tip [str "A", str "B", str "C"] (5 + k))).Perm
      ([str "A", str "B", str "C"].map some) ∧
    pick_tip [str "A", str "B", str "C"] (5 + 3) =
      pick_tip [str "A", str "B", str "C"] 5 :=
  c4_cycle [str "A", str "B", str "C"] 5 (by decide)

/-- C5: on a string containing none of the seven recognised tokens the
plain-text fallback transform is the identity, hence idempotent there. -/
theorem c5_fallback_identity (s : Str)
    (h : ∀ pat ∈ fallbackTokens, hasSub pat s = false) :
    build_text_fallback s = s ∧
    build_text_fallback (build_text_fallback s) = build_text_fallback s := by
  have e : build_text_fallback s = s := by
    rw [build_text_fallback,
      pyReplace_eq_self _ _ _ (h (str "<code>") (by decide)),
      pyReplace_eq_self _ _ _ (h (str "</code>") (by decide)),
      pyReplace_eq_self _ _ _ (h (str "<b>") (by decide)),
      pyReplace_eq_self _ _ _ (h (str "</b>") (by decide)),
      pyReplace_eq_self _ _ _ (h (str "&gt;") (by decide)),
      pyReplace_eq_self _ _ _ (h (str "&lt;") (by decide)),
      pyReplace_eq_self _ _ _ (h (str "&amp;") (by decide))]
  refine ⟨e, ?_⟩
  rw [e]
  exact e

/-- C5 witness: `"Use auto"` contains no recognised token and is left
unchanged (and the transform is idempotent on it). -/
theorem c5_witness :
    build_text_fallback (str "Use auto") = str "Use auto" ∧
    build_text_fallback (build_text_fallback (str "Use auto")) =
      build_text_fallback (str "Use auto") :=
  c5_fallback_identity (str "Use auto") (by decide)

/-- C6: with valid configuration, the dispatch loop connects, secures and
authenticates the session once, then performs exactly one send per
recipient, in recipient-list order, each message addressed individually
to that (re-stripped) recipient and carrying the same shared subject,
text body, and HTML body. -/
theorem c6_dispatch (u pw : Str) (receivers : List Str) (subject html text : Str)
    (hu : u ≠ []) (hp : pw ≠ []) (hr : receivers ≠ []) :
    send_email (some u) (some pw) receivers subject html text =
      Except.ok
        (NetEvent.connect (str "smtp.gmail.com") 587 :: NetEvent.starttls ::
          NetEvent.login u pw ::
          receivers.map (fun rcpt =>
            NetEvent.send u (strip rcpt) ⟨u, strip rcpt, subject, text, html⟩)) := by
  have hcond :
      (pyTruthy (some u) && pyTruthy (some pw) && !receivers.isEmpty) = true := by
    simp [pyTruthy, List.isEmpty_iff, hu, hp, hr]
  simp [send_email, hcond]

/-- C6 witness: the recipient value `"a@x.com, b@x.com"` parses to two
addresses and yields exactly two sends, in order, with identical
subject and body content. -/
theorem c6_witness :
    send_email (some (str "s@x.com")) (some (str "pw"))
      (parseReceivers (str "a@x.com, b@x.com")) (str "S") (str "H") (str "T") =
      Except.ok
        [NetEvent.connect (str "smtp.gmail.com") 587, NetEvent.starttls,
         NetEvent.login (str "s@x.com") (str "pw"),
         NetEvent.send (str "s@x.com") (str "a@x.com")
           ⟨str "s@x.com", str "a@x.com", str "S", str "T", str "H"⟩,
         NetEvent.send (str "s@x.com") (str "b@x.com")
           ⟨str "s@x.com", str "b@x.com", str "S", str "T", str "H"⟩] := by
  have h := c6_dispatch (str "s@x.com") (str "pw")
    (parseReceivers (str "a@x.com, b@x.com")) (str "S") (str "H") (str "T")
    (by decide) (by decide) (by decide)
  exact h.trans (by decide)

/-- C7: a missing or empty sender identity, sender credential, or
recipient list makes the run fail with the configuration error, and no
network event (connection, login, or send) is ever produced. -/
theorem c7_config_guard (sender password : Option Str) (receivers : List Str)
    (subject html text : Str)
    (h : pyTruthy sender = false ∨ pyTruthy password = false ∨ receivers = []) :
    send_email sender password receivers subject html text =
      Except.error AppError.configError ∧
    ∀ events : List NetEvent,
      send_email sender password receivers subject html text ≠ Except.ok events := by
  have hcond :
      (pyTruthy sender && pyTruthy password && !receivers.isEmpty) = false := by
    rcases h with h | h | h <;> simp [h]
  have h0 : send_email sender password receivers subject html text =
      Except.error AppError.configError := by
    simp [send_email, hcond]
  exact ⟨h0, fun events hev => by rw [h0] at hev; exact Except.noConfusion hev⟩

/-- C7 witness: with the sender identity unset, the run reports the
configuration error. -/
theorem c7_witness :
    send_email none (some (str "p")) [str "a@x.com"] (str "S") (str "H") (str "T") =
      Except.error AppError.configError :=
  (c7_config_guard none (some (str "p")) [str "a@x.com"] (str "S") (str "H")
    (str "T") (Or.inl rfl)).1

/-- C8 counterexample: on `"a@x.com,, b@x.com"` the parser drops the
entry that is empty after trimming, so its output is not the
split-and-trim sequence the claim describes — there IS filtering beyond
trimming. -/
theorem c8_counterexample :
    parseReceivers (str "a@x.com,, b@x.com") = [str "a@x.com", str "b@x.com"] ∧
    (splitComma (str "a@x.com,, b@x.com")).map strip =
      [str "a@x.com", [], str "b@x.com"] ∧
    parseReceivers (str "a@x.com,, b@x.com") ≠
      (splitComma (str "a@x.com,, b@x.com")).map strip := by
  exact ⟨by decide, by decide, by decide⟩

/-- C8 (amended): parsing the recipient value splits on commas, trims
surrounding whitespace from each entry, and discards the entries that
are empty after trimming; no deduplication and no other validation is
performed. -/
theorem c8_parse_amended (s : Str) :
    parseReceivers s = (((splitComma s).map strip).filter (fun t => !t.isEmpty)) := by
  unfold parseReceivers
  rw [List.filter_map]
  rfl

/-- C9: for every valid calendar date, the rendered subject line is the
fixed heading followed by the date in ISO `YYYY-MM-DD` form (four year
digits, two month digits, two day digits, separated by dashes). -/
theorem c9_subject_date (y m d : Nat) (hy1 : 1 ≤ y) (hy2 : y ≤ 9999)
    (hm1 : 1 ≤ m) (hm2 : m ≤ 12) (hd1 : 1 ≤ d) (hd2 : d ≤ 31) :
    subjectFor y m d = str "Daily C++ Byte â€¢ " ++ isoformat y m d ∧
    IsIsoDate (isoformat y m d) := by
  refine ⟨rfl, padZero 4 (natToStr y), padZero 2 (natToStr m), padZero 2 (natToStr d),
    rfl, ?_, ?_, ?_, ?_, ?_, ?_⟩
  · exact padZero_length _ (natToStr_length_le (by norm_num) (by omega))
  · exact padZero_length _ (natToStr_length_le (by norm_num) (by omega))
  · exact padZero_length _ (natToStr_length_le (by norm_num) (by omega))
  · exact padZero_digits _ _ (natToStr_digits y)
  · exact padZero_digits _ _ (natToStr_digits m)
  · exact padZero_digits _ _ (natToStr_digits d)

/-- C9 witness: on 2026-10-12 the subject is the heading followed by
`"2026-10-12"`, which has the ISO shape. -/
theorem c9_witness :
    (subjectFor 2026 10 12 = str "Daily C++ Byte â€¢ " ++ isoformat 2026 10 12 ∧
      IsIsoDate (isoformat 2026 10 12)) ∧
    isoformat 2026 10 12 = str "2026-10-12" :=
  ⟨c9_subject_date 2026 10 12 (by decide) (by decide) (by decide) (by decide)
    (by decide) (by decide), by decide⟩

set_option maxHeartbeats 16000000 in
/-- C10: the fallback substitutions run in one pass each, in a fixed
order in which the escapes for `<` and `>` are decoded before the escape
for `&`; hence `"&amp;lt;"` becomes the single-escaped `"&lt;"` and is
never decoded twice — whereas decoding `&amp;` before `&lt;` would
produce the literal `"<"`. -/
theorem c10_escape_order :
    (∀ s, build_text_fallback s =
      pyReplace (str "&amp;") (str "&")
        (pyReplace (str "&lt;") (str "<")
          (pyReplace (str "&gt;") (str ">")
            (pyReplace (str "</b>") (str "")
              (pyReplace (str "<b>") (str "")
                (pyReplace (str "</code>") (str "`")
                  (pyReplace (str "<code>") (str "`") s))))))) ∧
    build_text_fallback (str "&amp;lt;") = str "&lt;" ∧
    pyReplace (str "&lt;") (str "<")
      (pyReplace (str "&amp;") (str "&") (str "&amp;lt;")) = str "<" := by
  exact ⟨fun s => rfl, by decide, by decide⟩

end Newsletter
